import Mathlib

set_option linter.unusedVariables false

/-!
Shallow embedding of the credential lifecycle subsystem of the Campus-Sync
backend (src/backend/routes/authRoutes.js, src/backend/server.js, and the
older route variant src/unnamed/part_000), together with theorems settling
the claims of the spec about it.

Conventions of the embedding:
* An HTTP request body `{email, password, role}` is `AuthRequest`; a missing
  field and an empty string are identified (JavaScript falsiness of `!email`).
* The MongoDB user collection is a `List Account` in insertion order;
  `User.findOne` is `List.find?` (first match).
* Identifiers (`_id`), timestamps, and bcrypt salts are externally chosen
  values, passed to the workflows as explicit parameters.
* Store connectivity is the `storeUp` flag: when false the first store
  operation throws and the catch block of the route answers 500 "Server error".
-/

namespace CampusSync

/-- Role strings accepted by the register route, from the array literal
`["student", "teacher", "admin", "parent"]` at authRoutes.js line 21. -/
def permittedRoles : List String := ["student", "teacher", "admin", "parent"]

/-- Modelled from the spec: the bcryptjs library is an external dependency,
not among the sources of this repository. Spec §4.1: the digest embeds its
own randomly chosen salt, and `verify` decides exactly whether the plaintext
matches the one that was hashed. The `body` field stands for the one-way
image of the plaintext, which in this extensional model determines it. -/
structure Digest where
  salt : Nat
  body : String
deriving DecidableEq, Repr

/-- Modelled from the spec: `bcrypt.hash(password, 10)` with the salt made
explicit — identical plaintexts hashed under different salts give different
digests (spec §4.1). -/
def bcryptHash (password : String) (salt : Nat) : Digest :=
  ⟨salt, password⟩

/-- Modelled from the spec: `bcrypt.compare(password, digest)` — true exactly
when the plaintext matches the preimage of the digest, whatever the salt. -/
def bcryptCompare (password : String) (digest : Digest) : Bool :=
  password == digest.body

/-- One stored user document. Fields follow the User schema quoted in
src/Documentations/backend_docs.md §5: email (unique), password (the bcrypt
digest), role, plus mongoose `timestamps` (`createdAt`) and the Mongo `_id`. -/
structure Account where
  id : Nat
  email : String
  password : Digest
  role : String
  createdAt : Nat
deriving DecidableEq, Repr

/-- The user collection, in insertion order. -/
abbrev Store := List Account

/-- `User.findOne({ email })` (authRoutes.js line 25): first document whose
email matches. -/
def findOneByEmail (store : Store) (email : String) : Option Account :=
  store.find? fun u => u.email == email

/-- `User.findOne({ email, role })` (authRoutes.js line 57): first document
matching both fields. -/
def findOneByEmailAndRole (store : Store) (email role : String) : Option Account :=
  store.find? fun u => u.email == email && u.role == role

/-- Seconds in the jsonwebtoken lifetime string "7d" (authRoutes.js line 9). -/
def sevenDays : Nat := 7 * 24 * 60 * 60

/-- The signing key as it appears in the source: the string literal at
authRoutes.js line 9. -/
def jwtSecretLiteral : String := "your_jwt_secret"

/-- A signed token: payload `{ id }`, the issued-at and expiry claims
jsonwebtoken derives from `expiresIn: "7d"`, and the key it was signed with
(standing for the signature). -/
structure Token where
  id : Nat
  iat : Nat
  exp : Nat
  secret : String
deriving DecidableEq, Repr

/-- `generateToken` (authRoutes.js lines 8-10): sign `{ id }` with the literal
secret, expiring seven days after issuance. -/
def generateToken (id : Nat) (now : Nat) : Token :=
  ⟨id, now, now + sevenDays, jwtSecretLiteral⟩

/-- The secret `generateToken` signs with, as a function of the process
environment loaded by dotenv in server.js: the source ignores the
environment and uses the literal at authRoutes.js line 9. -/
def signingSecret (_env : String → Option String) : String :=
  jwtSecretLiteral

/-- Modelled from the spec: the `verify` of jsonwebtoken is an external
library, not among the sources of this repository. Spec §4.3: it checks the signature
(here: the signing key) and fails when the current time is at/after expiry,
returning the subject id on success. -/
def verifyToken (t : Token) (secret : String) (now : Nat) : Option Nat :=
  if t.secret == secret && now < t.exp then some t.id else none

/-- One HTTP response: status, the `message` field, and the optional `token`
and `user` fields of the JSON body. The user payload is kept as an ordered
key/value list so that exactly which fields are serialized is visible. -/
structure Response where
  status : Nat
  message : String
  token : Option Token
  user : Option (List (String × String))
deriving DecidableEq, Repr

/-- The `user` object built at authRoutes.js lines 37-41 and 69-73:
`{ id: user._id, email: user.email, role: user.role }`. -/
def userJson (u : Account) : List (String × String) :=
  [("id", toString u.id), ("email", u.email), ("role", u.role)]

/-- Rendering of a stored digest when a whole document is serialized. -/
def digestString (d : Digest) : String :=
  toString d.salt ++ "$" ++ d.body

/-- Modelled from the spec: the serialization of a whole user document, as
returned by the older route variant src/unnamed/part_000 line 28
(`res.status(201).json({ message, user })`). The User model file
(src/backend/models/User.js) is absent from src/; its fields are taken from
the schema quoted in src/Documentations/backend_docs.md §5: email, password
(the stored hash), role, and mongoose timestamps plus `_id`. -/
def part000UserJson (u : Account) : List (String × String) :=
  [("_id", toString u.id), ("email", u.email),
   ("password", digestString u.password),
   ("role", u.role), ("createdAt", toString u.createdAt)]

/-- The field list the spec prescribes for outward account representation
(spec §6): `{id, email, role, createdAt}`. Stated from the words of the spec, to
be compared with what the source serializes. -/
def specAccountFields : List String := ["id", "email", "role", "createdAt"]

/-- The outcome of a register call: the HTTP response and the store it
leaves behind. -/
structure RegisterOutcome where
  response : Response
  store : Store
deriving DecidableEq, Repr

/-- An HTTP request body for either route; a missing field is the empty
string. -/
structure AuthRequest where
  email : String
  password : String
  role : String
deriving DecidableEq, Repr

/-- POST /register (authRoutes.js lines 13-46). `newId` is the `_id` Mongo
assigns, `salt` the salt bcrypt draws, `now` the clock at the request. -/
def register (store : Store) (storeUp : Bool) (req : AuthRequest)
    (newId : Nat) (salt : Nat) (now : Nat) : RegisterOutcome :=
  if req.email == "" || req.password == "" || req.role == "" then
    ⟨⟨400, "All fields are required", none, none⟩, store⟩
  else if !(permittedRoles.contains req.role) then
    ⟨⟨400, "Invalid role", none, none⟩, store⟩
  else if !storeUp then
    ⟨⟨500, "Server error", none, none⟩, store⟩
  else
    match findOneByEmail store req.email with
    | some _ => ⟨⟨400, "User already exists", none, none⟩, store⟩
    | none =>
        let user : Account :=
          ⟨newId, req.email, bcryptHash req.password salt, req.role, now⟩
        ⟨⟨201, req.role ++ " registered successfully",
          some (generateToken newId now), some (userJson user)⟩,
         store ++ [user]⟩

/-- POST /login (authRoutes.js lines 49-78). The store is not mutated, so
only the response is returned. -/
def login (store : Store) (storeUp : Bool) (req : AuthRequest)
    (now : Nat) : Response :=
  if req.email == "" || req.password == "" || req.role == "" then
    ⟨400, "All fields are required", none, none⟩
  else if !storeUp then
    ⟨500, "Server error", none, none⟩
  else
    match findOneByEmailAndRole store req.email req.role with
    | none => ⟨400, "User not found for this role", none, none⟩
    | some user =>
        if !(bcryptCompare req.password user.password) then
          ⟨400, "Invalid password", none, none⟩
        else
          ⟨200, req.role ++ " login successful",
            some (generateToken user.id now), some (userJson user)⟩

/-- The store invariant of spec §3: no two accounts share an email. -/
def uniqueEmails (store : Store) : Prop :=
  store.Pairwise fun a b => a.email ≠ b.email

instance (store : Store) : Decidable (uniqueEmails store) :=
  inferInstanceAs (Decidable (store.Pairwise _))

/-! Helper lemmas about the store lookups. -/

/-- When no document has the email, no document has the email and a role. -/
theorem findOneByEmailAndRole_eq_none_of_fresh (store : Store) (email role : String)
    (h : findOneByEmail store email = none) :
    findOneByEmailAndRole store email role = none := by
  simp only [findOneByEmail, List.find?_eq_none] at h
  simp only [findOneByEmailAndRole, List.find?_eq_none]
  intro x hx hpx
  simp only [Bool.and_eq_true, beq_iff_eq] at hpx
  exact h x hx (by simp [hpx.1])

/-- In a store with unique emails, looking a stored email up under a role
other than the role of its unique owner finds nothing. -/
theorem findOneByEmailAndRole_eq_none_of_wrong_role (store : Store) (a : Account)
    (email role : String)
    (huniq : uniqueEmails store) (hmem : a ∈ store) (hemail : a.email = email)
    (hrole : a.role ≠ role) :
    findOneByEmailAndRole store email role = none := by
  have hu : store.Pairwise fun u v => u.email ≠ v.email := huniq
  simp only [findOneByEmailAndRole, List.find?_eq_none]
  intro x hx hpx
  simp only [Bool.and_eq_true, beq_iff_eq] at hpx
  by_cases hxa : x = a
  · subst hxa
    exact hrole (hpx.2 ▸ rfl)
  · have hsym : Symmetric fun (u v : Account) => u.email ≠ v.email :=
      fun u v h heq => h heq.symm
    exact hu.forall hsym hx hmem hxa (hpx.1.trans hemail.symm)

/-! Theorems settling the claims. -/

/-- Claim C2: for every password `p`, `verify(p, hash(p))` is true, and for distinct
passwords `p ≠ q`, `verify(p, hash(q))` is false, whatever salts the two
hashes drew, for every permitted role value. -/
theorem bcrypt_hash_verify_roundtrip (role : String) (hrole : role ∈ permittedRoles)
    (p q : String) (s₁ s₂ : Nat) :
    bcryptCompare p (bcryptHash p s₁) = true ∧
    (p ≠ q → bcryptCompare p (bcryptHash q s₂) = false) := by
  constructor
  · simp [bcryptCompare, bcryptHash]
  · intro hne
    simp [bcryptCompare, bcryptHash, hne]

/-- Witness for C2 at role "student", passwords "pw1" and "pw2", salts 3, 4. -/
theorem bcrypt_hash_verify_roundtrip_witness :
    bcryptCompare "pw1" (bcryptHash "pw1" 3) = true ∧
    bcryptCompare "pw1" (bcryptHash "pw2" 4) = false :=
  ⟨(bcrypt_hash_verify_roundtrip "student" (by decide) "pw1" "pw2" 3 4).1,
   (bcrypt_hash_verify_roundtrip "student" (by decide) "pw1" "pw2" 3 4).2 (by decide)⟩

/-- Claim C5: a token issued at time `T` embeds the account id as subject and an
expiry equal to issued-at plus seven days; verification accepts it at every
time in `[T, T + 7d)` and rejects it at or after `T + 7d`. -/
theorem token_seven_day_window (id T t : Nat) :
    (generateToken id T).id = id ∧
    (generateToken id T).iat = T ∧
    (generateToken id T).exp = (generateToken id T).iat + sevenDays ∧
    (T ≤ t → t < T + sevenDays →
      verifyToken (generateToken id T) jwtSecretLiteral t = some id) ∧
    (T + sevenDays ≤ t →
      verifyToken (generateToken id T) jwtSecretLiteral t = none) := by
  refine ⟨rfl, rfl, rfl, ?_, ?_⟩
  · intro _ hlt
    simp [verifyToken, generateToken, hlt]
  · intro hge
    simp [verifyToken, generateToken, Nat.not_lt.mpr hge]

/-- Witness for C5 at id 5, issuance time 100, checked just after issuance
and exactly at expiry. -/
theorem token_seven_day_window_witness :
    verifyToken (generateToken 5 100) jwtSecretLiteral 100 = some 5 ∧
    verifyToken (generateToken 5 100) jwtSecretLiteral (100 + sevenDays) = none :=
  ⟨(token_seven_day_window 5 100 100).2.2.2.1 (by decide) (by decide),
   (token_seven_day_window 5 100 (100 + sevenDays)).2.2.2.2 (by decide)⟩

/-- Claim C7: the signing key the source uses is the string literal
"your_jwt_secret" at authRoutes.js line 9, identical for every issuance but
NOT read from process configuration: the process environment — here one that
sets JWT_SECRET to a different value — has no effect on it. The repository
documentation (src/Documentations/backend_docs.md §3, §6, §10) prescribes
`process.env.JWT_SECRET` loaded from `.env` instead. -/
theorem signingSecret_ignores_environment :
    signingSecret (fun k => if k == "JWT_SECRET" then some "rotated-secret" else none)
        = "your_jwt_secret" ∧
    (∀ env₁ env₂ : String → Option String, signingSecret env₁ = signingSecret env₂) ∧
    (∀ id now, (generateToken id now).secret = "your_jwt_secret") :=
  ⟨rfl, fun _ _ => rfl, fun _ _ => rfl⟩

/-- Claim C3: when the store already holds an account with the email of the
request, register fails with "User already exists" (DuplicateEmail) for
every permitted role supplied — also one differing from the stored role —
and the store is returned unchanged. -/
theorem register_duplicate_email_rejected (store : Store) (req : AuthRequest)
    (newId salt now : Nat) (a : Account)
    (hemail : req.email ≠ "") (hpw : req.password ≠ "")
    (hrole : req.role ∈ permittedRoles)
    (hdup : findOneByEmail store req.email = some a) :
    register store true req newId salt now =
      ⟨⟨400, "User already exists", none, none⟩, store⟩ := by
  have hr : req.role ≠ "" := by
    intro h
    rw [h] at hrole
    simp [permittedRoles] at hrole
  simp [register, hemail, hpw, hr, hrole, hdup]

/-- Witness for C3: the store holds a@x.com as student; registering a@x.com
as teacher is rejected and the store is unchanged. -/
theorem register_duplicate_email_rejected_witness :
    register [⟨1, "a@x.com", bcryptHash "pw" 0, "student", 0⟩] true
        ⟨"a@x.com", "pw2", "teacher"⟩ 2 1 9 =
      ⟨⟨400, "User already exists", none, none⟩,
       [⟨1, "a@x.com", bcryptHash "pw" 0, "student", 0⟩]⟩ :=
  register_duplicate_email_rejected
    [⟨1, "a@x.com", bcryptHash "pw" 0, "student", 0⟩]
    ⟨"a@x.com", "pw2", "teacher"⟩ 2 1 9
    ⟨1, "a@x.com", bcryptHash "pw" 0, "student", 0⟩
    (by decide) (by decide) (by decide) (by decide)

/-- Claim C4: login with the email and correct password of a stored account but a
different (non-empty) role fails with "User not found for this role", and
the response is identical to the one produced when the email is absent from
the store altogether, so it reveals nothing about the email existing under
another role. -/
theorem login_wrong_role_not_found (store : Store) (a : Account)
    (req : AuthRequest) (now : Nat)
    (huniq : uniqueEmails store) (hmem : a ∈ store) (hemail : a.email = req.email)
    (hpw : bcryptCompare req.password a.password = true)
    (he : req.email ≠ "") (hp : req.password ≠ "") (hr : req.role ≠ "")
    (hrole : req.role ≠ a.role) :
    login store true req now = ⟨400, "User not found for this role", none, none⟩ ∧
    login store true req now = login [] true req now := by
  have hfind := findOneByEmailAndRole_eq_none_of_wrong_role store a
    req.email req.role huniq hmem hemail (fun h => hrole h.symm)
  have h₁ : login store true req now =
      ⟨400, "User not found for this role", none, none⟩ := by
    simp [login, he, hp, hr, hfind]
  have h₂ : login [] true req now =
      ⟨400, "User not found for this role", none, none⟩ := by
    simp [login, he, hp, hr, findOneByEmailAndRole]
  exact ⟨h₁, h₁.trans h₂.symm⟩

/-- Witness for C4: a@x.com is stored as student with password "pw"; login
as teacher with the correct password is turned away exactly as if the email
were unknown. -/
theorem login_wrong_role_not_found_witness :
    login [⟨1, "a@x.com", bcryptHash "pw" 0, "student", 0⟩] true
        ⟨"a@x.com", "pw", "teacher"⟩ 9 =
      ⟨400, "User not found for this role", none, none⟩ ∧
    login [⟨1, "a@x.com", bcryptHash "pw" 0, "student", 0⟩] true
        ⟨"a@x.com", "pw", "teacher"⟩ 9 =
      login [] true ⟨"a@x.com", "pw", "teacher"⟩ 9 :=
  login_wrong_role_not_found
    [⟨1, "a@x.com", bcryptHash "pw" 0, "student", 0⟩]
    ⟨1, "a@x.com", bcryptHash "pw" 0, "student", 0⟩
    ⟨"a@x.com", "pw", "teacher"⟩ 9
    (by decide) (by decide) (by decide) (by decide)
    (by decide) (by decide) (by decide) (by decide)

/-- Claim C9: register is the only store-mutating operation, and it preserves the
invariant that no two stored accounts share an email, whatever the request,
connectivity, and externally chosen id, salt and clock. -/
theorem register_preserves_unique_emails (store : Store) (storeUp : Bool)
    (req : AuthRequest) (newId salt now : Nat)
    (h : uniqueEmails store) :
    uniqueEmails (register store storeUp req newId salt now).store := by
  unfold register
  split
  · exact h
  split
  · exact h
  split
  · exact h
  cases hfind : findOneByEmail store req.email with
  | some a => simpa [hfind] using h
  | none =>
      simp only [hfind]
      have hu : store.Pairwise fun u v => u.email ≠ v.email := h
      show List.Pairwise _ (store ++ [_])
      rw [List.pairwise_append]
      refine ⟨hu, by simp, ?_⟩
      intro x hx y hy
      simp only [List.mem_singleton] at hy
      subst hy
      simp only [findOneByEmail, List.find?_eq_none] at hfind
      have := hfind x hx
      simpa using this

/-- Witness for C9: registering into a store that already holds one account
with a distinct email keeps all emails distinct. -/
theorem register_preserves_unique_emails_witness :
    uniqueEmails (register [⟨1, "b@x.com", bcryptHash "q" 2, "teacher", 0⟩] true
      ⟨"a@x.com", "pw", "student"⟩ 2 0 0).store :=
  register_preserves_unique_emails
    [⟨1, "b@x.com", bcryptHash "q" 2, "teacher", 0⟩] true
    ⟨"a@x.com", "pw", "student"⟩ 2 0 0 (by decide)

/-- Claim C10: login performs no role-set validation: any non-empty role string —
also one outside the permitted set — passes input validation and reaches the
store lookup, where an unknown role (in a store holding only permitted
roles) yields "User not found for this role"; register instead rejects the
same out-of-set role with "Invalid role" (InvalidInput). -/
theorem login_unknown_role_reaches_lookup (store : Store) (req : AuthRequest)
    (now newId salt : Nat)
    (he : req.email ≠ "") (hp : req.password ≠ "") (hr : req.role ≠ "")
    (hrole : req.role ∉ permittedRoles)
    (hstore : ∀ a ∈ store, a.role ∈ permittedRoles) :
    login store true req now = ⟨400, "User not found for this role", none, none⟩ ∧
    (register store true req newId salt now).response =
      ⟨400, "Invalid role", none, none⟩ := by
  have hfind : findOneByEmailAndRole store req.email req.role = none := by
    simp only [findOneByEmailAndRole, List.find?_eq_none]
    intro x hx hpx
    simp only [Bool.and_eq_true, beq_iff_eq] at hpx
    exact hrole (hpx.2 ▸ hstore x hx)
  constructor
  · simp [login, he, hp, hr, hfind]
  · simp [register, he, hp, hr, hrole]

/-- Witness for C10: role "hacker" on a store holding one student account:
login answers not-found-for-role, register answers invalid-role. -/
theorem login_unknown_role_reaches_lookup_witness :
    login [⟨1, "a@x.com", bcryptHash "pw" 0, "student", 0⟩] true
        ⟨"a@x.com", "pw", "hacker"⟩ 9 =
      ⟨400, "User not found for this role", none, none⟩ ∧
    (register [⟨1, "a@x.com", bcryptHash "pw" 0, "student", 0⟩] true
        ⟨"a@x.com", "pw", "hacker"⟩ 2 0 9).response =
      ⟨400, "Invalid role", none, none⟩ :=
  login_unknown_role_reaches_lookup
    [⟨1, "a@x.com", bcryptHash "pw" 0, "student", 0⟩]
    ⟨"a@x.com", "pw", "hacker"⟩ 9 2 0
    (by decide) (by decide) (by decide) (by decide) (by decide)

/-- Claim C8: a failing register run (all non-201 outcomes: missing fields, invalid
role, store down, duplicate email) carries no token, and whenever a token is
returned its subject id belongs to an account present in the resulting
store. -/
theorem register_token_only_after_persist (store : Store) (storeUp : Bool)
    (req : AuthRequest) (newId salt now : Nat) :
    ((register store storeUp req newId salt now).response.status ≠ 201 →
        (register store storeUp req newId salt now).response.token = none) ∧
    (∀ tk, (register store storeUp req newId salt now).response.token = some tk →
        ∃ a, a ∈ (register store storeUp req newId salt now).store ∧
          a.id = tk.id) := by
  unfold register
  split
  · exact ⟨fun _ => rfl, fun tk h => by simp at h⟩
  split
  · exact ⟨fun _ => rfl, fun tk h => by simp at h⟩
  split
  · exact ⟨fun _ => rfl, fun tk h => by simp at h⟩
  split
  · exact ⟨fun _ => rfl, fun tk h => by simp at h⟩
  · refine ⟨fun h => absurd rfl h, fun tk h => ?_⟩
    have htk : generateToken newId now = tk := by simpa using h
    exact ⟨⟨newId, req.email, bcryptHash req.password salt, req.role, now⟩,
      by simp, by rw [← htk]; rfl⟩

/-- Witness for C8: a duplicate-email failure returns no token. -/
theorem register_token_only_after_persist_witness :
    (register [⟨1, "a@x.com", bcryptHash "pw" 0, "student", 0⟩] true
        ⟨"a@x.com", "pw2", "student"⟩ 2 0 9).response.token = none :=
  (register_token_only_after_persist
      [⟨1, "a@x.com", bcryptHash "pw" 0, "student", 0⟩] true
      ⟨"a@x.com", "pw2", "student"⟩ 2 0 9).1 (by decide)

/-- Claim C1: for a valid request (non-empty email and password, permitted role)
whose email is not yet stored, register succeeds with status 201 and then
login with the same triple succeeds with status 200, and the two returned
tokens both embed the freshly assigned account id as subject. -/
theorem register_then_login_same_subject (store : Store) (req : AuthRequest)
    (newId salt now now₂ : Nat)
    (he : req.email ≠ "") (hp : req.password ≠ "")
    (hrole : req.role ∈ permittedRoles)
    (hfresh : findOneByEmail store req.email = none) :
    (register store true req newId salt now).response.status = 201 ∧
    (register store true req newId salt now).response.token =
      some (generateToken newId now) ∧
    (login (register store true req newId salt now).store true req now₂).status
      = 200 ∧
    (login (register store true req newId salt now).store true req now₂).token
      = some (generateToken newId now₂) ∧
    (generateToken newId now).id = newId ∧
    (generateToken newId now₂).id = newId := by
  have hr : req.role ≠ "" := by
    intro h
    rw [h] at hrole
    simp [permittedRoles] at hrole
  have hreg : register store true req newId salt now =
      ⟨⟨201, req.role ++ " registered successfully",
        some (generateToken newId now),
        some (userJson ⟨newId, req.email, bcryptHash req.password salt, req.role, now⟩)⟩,
       store ++ [⟨newId, req.email, bcryptHash req.password salt, req.role, now⟩]⟩ := by
    simp [register, he, hp, hr, hrole, hfresh]
  have hfind : findOneByEmailAndRole
      (store ++ [⟨newId, req.email, bcryptHash req.password salt, req.role, now⟩])
      req.email req.role =
      some ⟨newId, req.email, bcryptHash req.password salt, req.role, now⟩ := by
    have h₁ : findOneByEmailAndRole store req.email req.role = none :=
      findOneByEmailAndRole_eq_none_of_fresh store req.email req.role hfresh
    simp only [findOneByEmailAndRole] at h₁ ⊢
    rw [List.find?_append, h₁]
    simp
  have hlogin : login
      (store ++ [⟨newId, req.email, bcryptHash req.password salt, req.role, now⟩])
      true req now₂ =
      ⟨200, req.role ++ " login successful", some (generateToken newId now₂),
        some (userJson ⟨newId, req.email, bcryptHash req.password salt, req.role, now⟩)⟩ := by
    simp only [login, hfind]
    simp [he, hp, hr, bcryptCompare, bcryptHash]
  rw [hreg]
  exact ⟨rfl, rfl, by simp [hlogin], by simp [hlogin], rfl, rfl⟩

/-- Witness for C1: registering a@x.com as student into the empty store at
time 0, then logging in at time 5. -/
theorem register_then_login_same_subject_witness :
    (register [] true ⟨"a@x.com", "pw1", "student"⟩ 1 0 0).response.status = 201 ∧
    (register [] true ⟨"a@x.com", "pw1", "student"⟩ 1 0 0).response.token =
      some (generateToken 1 0) ∧
    (login (register [] true ⟨"a@x.com", "pw1", "student"⟩ 1 0 0).store true
        ⟨"a@x.com", "pw1", "student"⟩ 5).status = 200 ∧
    (login (register [] true ⟨"a@x.com", "pw1", "student"⟩ 1 0 0).store true
        ⟨"a@x.com", "pw1", "student"⟩ 5).token = some (generateToken 1 5) ∧
    (generateToken 1 0).id = 1 ∧
    (generateToken 1 5).id = 1 :=
  register_then_login_same_subject [] ⟨"a@x.com", "pw1", "student"⟩ 1 0 0 5
    (by decide) (by decide) (by decide) (by decide)

/-- Claim C6 counterexample: a concrete successful register run returns the user
as `{id, email, role}` — its field list differs from the field list
`{id, email, role, createdAt}` the claim prescribes (`createdAt` is absent) —
and the older route variant src/unnamed/part_000 serializes the whole user
document, whose fields include the stored password hash. -/
theorem register_user_fields_counterexample :
    (register [] true ⟨"a@x.com", "pw", "student"⟩ 1 0 0).response.user =
      some [("id", "1"), ("email", "a@x.com"), ("role", "student")] ∧
    ((register [] true ⟨"a@x.com", "pw", "student"⟩ 1 0 0).response.user.getD
        []).map Prod.fst ≠ specAccountFields ∧
    "createdAt" ∈ specAccountFields ∧
    ("password", digestString (bcryptHash "pw" 0)) ∈
      part000UserJson ⟨1, "a@x.com", bcryptHash "pw" 0, "student", 0⟩ :=
  ⟨by decide, by decide, by decide, by decide⟩

/-- Claim C6 as amended: in authRoutes.js every user payload a successful register
or login returns is `userJson`, whose field list is exactly
`["id", "email", "role"]` — no `createdAt` — and contains neither a
`password` nor a `passwordHash` field; the older variant part_000 instead
returns the whole document, stored password hash included. -/
theorem serialized_user_fields (u : Account) (store : Store) (storeUp : Bool)
    (req : AuthRequest) (newId salt now : Nat) :
    (userJson u).map Prod.fst = ["id", "email", "role"] ∧
    "passwordHash" ∉ (userJson u).map Prod.fst ∧
    "password" ∉ (userJson u).map Prod.fst ∧
    "createdAt" ∉ (userJson u).map Prod.fst ∧
    (∀ js, (register store storeUp req newId salt now).response.user = some js →
        ∃ acct, js = userJson acct) ∧
    (∀ js, (login store storeUp req now).user = some js →
        ∃ acct, js = userJson acct) ∧
    ("password", digestString u.password) ∈ part000UserJson u := by
  refine ⟨rfl, by simp [userJson], by simp [userJson], by simp [userJson],
    ?_, ?_, by simp [part000UserJson]⟩
  · unfold register
    split
    · intro js h; simp at h
    split
    · intro js h; simp at h
    split
    · intro js h; simp at h
    split
    · intro js h; simp at h
    · intro js h
      exact ⟨_, (Option.some.inj h).symm⟩
  · unfold login
    split
    · intro js h; simp at h
    split
    · intro js h; simp at h
    split
    · intro js h; simp at h
    · split
      · intro js h; simp at h
      · intro js h
        exact ⟨_, (Option.some.inj h).symm⟩

end CampusSync
